import Mathlib

/-!
Verification of the coordination core of the multi-agent transaction-review
pipeline: message envelope and wrapper serialization, shared-subscription
routing and acknowledgment, the Deep Cycle execute phase, the workflow-state
store, the screening rule engine, and the worker start-up loop.

The embedding is shallow: Python dictionaries become association lists over a
JSON-like value type, storage backends become an explicit store value threaded
through the operations, exceptions become Except results, and wall-clock
timestamps and generated uuids become explicit string parameters.
-/

namespace Mag

/-- JSON-like runtime value, the payload type of all Python dictionaries in
the coordination core.  Numbers are modelled as rationals (Python floats with
exact decimal values behave identically for the comparisons used here). -/
inductive Value where
  | null
  | bool (b : Bool)
  | num (q : Rat)
  | str (s : String)
  | arr (xs : List Value)
  | obj (kvs : List (String × Value))
  deriving Repr

/-- A Python dict with string keys, as an association list.  Python dicts have
unique keys; insertion replaces the existing binding in place. -/
abbrev Dict := List (String × Value)

/-- Keyed lookup in an association list (Python `d[k]` / `d.get(k)`), first
binding wins; with the unique-key invariant this is the only binding. -/
def alGet {κ α : Type} [DecidableEq κ] : List (κ × α) → κ → Option α
  | [], _ => none
  | (k, v) :: rest, key => if k = key then some v else alGet rest key

/-- Keyed insertion/replacement (Python `d[k] = v`): replaces the first
binding of the key, appends when absent. -/
def alSet {κ α : Type} [DecidableEq κ] : List (κ × α) → κ → α → List (κ × α)
  | [], key, v => [(key, v)]
  | (k, w) :: rest, key, v =>
      if k = key then (key, v) :: rest else (k, w) :: alSet rest key v

theorem alGet_alSet_self {κ α : Type} [DecidableEq κ] (l : List (κ × α)) (k : κ) (v : α) :
    alGet (alSet l k v) k = some v := by
  induction l with
  | nil => simp [alGet, alSet]
  | cons hd tl ih =>
      by_cases h : hd.1 = k
      · simp [alSet, alGet, h]
      · simp [alSet, alGet, h, ih]

theorem alGet_alSet_ne {κ α : Type} [DecidableEq κ] (l : List (κ × α)) (k k' : κ) (v : α)
    (h : k' ≠ k) : alGet (alSet l k v) k' = alGet l k' := by
  have h2 : ¬ (k = k') := fun he => h he.symm
  induction l with
  | nil => simp [alGet, alSet, h2]
  | cons hd tl ih =>
      by_cases hh : hd.1 = k
      · simp [alSet, alGet, hh, h2]
      · by_cases hk : hd.1 = k'
        · simp [alSet, alGet, hh, hk, h]
        · simp [alSet, alGet, hh, hk, ih]

/-- dict lookup for `Dict`. -/
def dictGet (d : Dict) (k : String) : Option Value := alGet d k

/-- dict assignment for `Dict`. -/
def dictSet (d : Dict) (k : String) (v : Value) : Dict := alSet d k v

theorem dictGet_dictSet_self (d : Dict) (k : String) (v : Value) :
    dictGet (dictSet d k v) k = some v := alGet_alSet_self d k v

theorem dictGet_dictSet_ne (d : Dict) (k k' : String) (v : Value) (h : k' ≠ k) :
    dictGet (dictSet d k v) k' = dictGet d k' := alGet_alSet_ne d k k' v h

/-- ASCII upper-casing of one character, the fragment of Python `str.upper`
exercised by the rule engine (country and jurisdiction codes are ASCII). -/
def upperChar (c : Char) : Char :=
  if 'a' ≤ c ∧ c ≤ 'z' then Char.ofNat (c.toNat - 32) else c

/-- ASCII lower-casing of one character (Python `str.lower` on ASCII). -/
def lowerChar (c : Char) : Char :=
  if 'A' ≤ c ∧ c ≤ 'Z' then Char.ofNat (c.toNat + 32) else c

/-- Python `s.upper()` restricted to ASCII. -/
def pyUpper (s : String) : String := ⟨s.data.map upperChar⟩

/-- Python `s.lower()` restricted to ASCII. -/
def pyLower (s : String) : String := ⟨s.data.map lowerChar⟩

/-- Python truthiness of a value (`bool(v)`), used by `or` fallbacks and
`if not x` checks in the agents. -/
def pyTruthy : Value → Bool
  | .null => false
  | .bool b => b
  | .num q => q != 0
  | .str s => !s.isEmpty
  | .arr xs => !xs.isEmpty
  | .obj kvs => !kvs.isEmpty

/-- Python `a or b` on values. -/
def pyOr (a b : Value) : Value := if pyTruthy a then a else b

/-- Substring containment, the property a summary string must satisfy. -/
def strContainsP (s pat : String) : Prop := ∃ a b : String, s = a ++ (pat ++ b)

/-! ## Envelope and wrapper (shared/a2a_message.py) -/

/-- A2A message role (`Role.USER` / `Role.AGENT`). -/
inductive Role where
  | user
  | agent
  deriving DecidableEq, Repr

/-- The wire value of a role (`role.value`). -/
def Role.value : Role → String
  | .user => "user"
  | .agent => "agent"

/-- One text segment of a message (`Part(text=...)`). -/
structure MsgPart where
  text : String
  deriving DecidableEq, Repr

/-- The A2A envelope (`a2a.types.Message` as used by this codebase). -/
structure Message where
  message_id : String
  role : Role
  parts : List MsgPart
  context_id : Option String
  task_id : Option String
  deriving DecidableEq, Repr

/-- Encoding of an optional string field (`None` becomes JSON null). -/
def optStrVal : Option String → Value
  | none => .null
  | some s => .str s

/-- `message_to_dict`: serialize an envelope to its dictionary wire form. -/
def message_to_dict (m : Message) : Dict :=
  [("message_id", .str m.message_id),
   ("role", .str m.role.value),
   ("parts", .arr (m.parts.map fun p => .obj [("text", .str p.text)])),
   ("context_id", optStrVal m.context_id),
   ("task_id", optStrVal m.task_id)]

/-- Python `data.get(k, dflt)` used where a string is required afterwards
(a non-string value would raise when a string method or a typed constructor
field consumes it, hence `none`). -/
def pyGetStr (d : Dict) (k : String) (dflt : String) : Option String :=
  match dictGet d k with
  | none => some dflt
  | some (.str s) => some s
  | some _ => none

/-- Python `data.get(k)` for an `Optional[str]` field: absent and JSON null
both give `None`; a non-string, non-null value would fail validation. -/
def pyGetOptStr (d : Dict) (k : String) : Option (Option String) :=
  match dictGet d k with
  | none => some none
  | some .null => some none
  | some (.str s) => some (some s)
  | some _ => none

/-- One entry of the serialized parts list: `Part(text=part.get("text", ""))`;
a non-dictionary entry or a non-string text would raise. -/
def partFromValue : Value → Option MsgPart
  | .obj kvs =>
      match alGet kvs "text" with
      | none => some ⟨""⟩
      | some (.str s) => some ⟨s⟩
      | some _ => none
  | _ => none

/-- The parts list comprehension of `message_from_dict`; any entry raising
makes the whole call raise. -/
def decodeParts : List Value → Option (List MsgPart)
  | [] => some []
  | v :: rest => do
      let p ← partFromValue v
      let ps ← decodeParts rest
      some (p :: ps)

/-- `message_from_dict`: decode an envelope from its dictionary wire form.
The role defaults to AGENT unless the lowered role string is "user". -/
def message_from_dict (d : Dict) : Option Message := do
  let mid ← pyGetStr d "message_id" ""
  let roleStr ← pyGetStr d "role" ""
  let role := if pyLower roleStr == "user" then Role.user else Role.agent
  let parts ←
    match (dictGet d "parts").getD (.arr []) with
    | .arr xs => decodeParts xs
    | _ => none
  let ctx ← pyGetOptStr d "context_id"
  let tid ← pyGetOptStr d "task_id"
  some ⟨mid, role, parts, ctx, tid⟩

/-- The routable wrapper (`A2AMessageWrapper`). -/
structure A2AMessageWrapper where
  message : Message
  from_agent : String
  to_agent : String
  payload : Dict
  conversation_id : Option String
  correlation_id : Option String
  metadata : Dict

/-- Python `"-" in s`. -/
def containsDash (s : String) : Bool := s.data.contains '-'

/-- Python `s.split("-")[0]`: the segment before the first dash. -/
def beforeDash (s : String) : String := ⟨s.data.takeWhile (fun c => c != '-')⟩

/-- The `A2AMessageWrapper.__init__` constructor.  `now` is the value of
`datetime.utcnow().isoformat()` at construction time, made explicit. -/
def mkWrapper (message : Message) (from_agent to_agent : String) (payload : Dict)
    (now : String) : A2AMessageWrapper :=
  ⟨message, from_agent, to_agent, payload, message.context_id, message.task_id,
   [("agent_id", .str from_agent),
    ("agent_type", .str (if containsDash from_agent then beforeDash from_agent else from_agent)),
    ("task_id", .str (message.task_id.getD "")),
    ("timestamp", .str now)]⟩

/-- `A2AMessageWrapper.to_dict`: the JSON wire object of one message. -/
def wrapper_to_dict (w : A2AMessageWrapper) : Dict :=
  [("from_agent", .str w.from_agent),
   ("to_agent", .str w.to_agent),
   ("message", .obj (message_to_dict w.message)),
   ("payload", .obj w.payload),
   ("metadata", .obj w.metadata),
   ("conversation_id", optStrVal w.conversation_id),
   ("correlation_id", optStrVal w.correlation_id)]

/-- `A2AMessageWrapper.from_json` after `json.loads`: reads only the
"message" entry of the wire object (defaulting to `{}`) and rebuilds the
wrapper through the constructor with the caller-supplied `from_agent`,
`to_agent` and `payload`; `now` is the deserialization-time clock. -/
def wrapper_from_json (d : Dict) (from_agent to_agent : String) (payload : Dict)
    (now : String) : Option A2AMessageWrapper :=
  match (dictGet d "message").getD (.obj []) with
  | .obj kvs => (message_from_dict kvs).map fun m => mkWrapper m from_agent to_agent payload now
  | _ => none

theorem parts_decode_encode (ps : List MsgPart) :
    decodeParts (ps.map fun p => Value.obj [("text", .str p.text)]) = some ps := by
  induction ps with
  | nil => rfl
  | cons p rest ih => simp [decodeParts, partFromValue, alGet, ih]

theorem message_decode_encode (m : Message) :
    message_from_dict (message_to_dict m) = some m := by
  obtain ⟨mid, role, parts, ctx, tid⟩ := m
  cases role <;> cases ctx <;> cases tid <;>
    simp [message_from_dict, message_to_dict, pyGetStr, pyGetOptStr, dictGet, alGet,
      optStrVal, Role.value, parts_decode_encode, pyLower, lowerChar]

/-- Concrete envelope for the round-trip counterexample. -/
def c7msg : Message := ⟨"m-1", .agent, [⟨"hello"⟩], some "ctx-1", some "task-1"⟩

/-- Claim C7, counterexample: serializing a wrapper and deserializing it back
does NOT yield a value equal to the original in every field.  With the
construction clock "T1" and the deserialization clock "T2", the round-tripped
wrapper's metadata carries the fresh timestamp "T2" generated inside the
constructor, so it differs from the original metadata. -/
theorem wrapper_roundtrip_counterexample :
    ((wrapper_from_json
        (wrapper_to_dict (mkWrapper c7msg "evaluator-agent" "scap-agent" [] "T1"))
        "evaluator-agent" "scap-agent" [] "T2").map A2AMessageWrapper.metadata) =
      some ((mkWrapper c7msg "evaluator-agent" "scap-agent" [] "T2").metadata) ∧
    (mkWrapper c7msg "evaluator-agent" "scap-agent" [] "T2").metadata ≠
      (mkWrapper c7msg "evaluator-agent" "scap-agent" [] "T1").metadata :=
  ⟨rfl, by simp [mkWrapper]⟩

/-- Claim C7 (amended): envelope encode/decode restores every envelope field;
wrapper serialize/deserialize (with `from_agent`, `to_agent` and `payload`
supplied again by the caller, as `from_json` requires) restores every wrapper
field except `metadata.timestamp`, which is re-generated at deserialization
time — the round-trip equals a wrapper constructed at the deserialization
clock `t2`, hence all fields agree whenever `t2` equals the original clock. -/
theorem wrapper_roundtrip_amended :
    (∀ m : Message, message_from_dict (message_to_dict m) = some m) ∧
    (∀ (m : Message) (fa ta : String) (p : Dict) (t1 t2 : String),
      wrapper_from_json (wrapper_to_dict (mkWrapper m fa ta p t1)) fa ta p t2 =
        some (mkWrapper m fa ta p t2)) := by
  refine ⟨message_decode_encode, ?_⟩
  intro m fa ta p t1 t2
  simp [wrapper_from_json, wrapper_to_dict, dictGet, alGet, mkWrapper, message_decode_encode]

/-! ## Shared-subscription receive loop (shared/asb_client.py, receive_messages) -/

/-- Disposition of one received bus message. -/
inductive MsgAction where
  | complete
  | abandon
  | deadLetter
  deriving DecidableEq, Repr

/-- `data.get("to_agent", "")` of a decoded wire object. -/
def toAgentField (d : Dict) : Value := (dictGet d "to_agent").getD (.str "")

/-- Python `v == s` where `s` is a string: equal strings compare equal, any
non-string value compares unequal. -/
def valueIsStr (v : Value) (s : String) : Bool :=
  match v with
  | .str t => t == s
  | _ => false

/-- The body of the `async for` in `receive_messages` for one decoded message:
dispatch to the handler and complete on a match, abandon on a mismatch, and
dead-letter when the handler raises.  The second component counts handler
invocations in this step (always 0 or 1: no retry). -/
def processOne (agent_id : String) (handler : Dict → Except String Unit) (d : Dict) :
    MsgAction × Nat :=
  if valueIsStr (toAgentField d) agent_id then
    match handler d with
    | .ok _ => (.complete, 1)
    | .error _ => (.deadLetter, 1)
  else (.abandon, 0)

/-- Outcome of running the receive loop: the per-step trace (message,
disposition, handler invocations) and the messages still pending on the
subscription. -/
structure RunResult where
  trace : List (Dict × MsgAction × Nat)
  pending : List Dict

/-- Subscription state after one disposition: a completed or dead-lettered
message is permanently removed; an abandoned message returns to the
subscription and becomes visible again. -/
def nextQueue (act : MsgAction) (d : Dict) (rest : List Dict) : List Dict :=
  match act with
  | .abandon => rest ++ [d]
  | _ => rest

/-- The receive loop over the shared subscription, for `fuel` delivery steps. -/
def runReceive (agent_id : String) (handler : Dict → Except String Unit) :
    Nat → List Dict → RunResult
  | 0, q => ⟨[], q⟩
  | _ + 1, [] => ⟨[], []⟩
  | fuel + 1, d :: rest =>
      let step := processOne agent_id handler d
      let r := runReceive agent_id handler fuel (nextQueue step.1 d rest)
      ⟨(d, step.1, step.2) :: r.trace, r.pending⟩

theorem runReceive_zero (aid : String) (handler : Dict → Except String Unit) (q : List Dict) :
    runReceive aid handler 0 q = ⟨[], q⟩ := rfl

theorem runReceive_nil (aid : String) (handler : Dict → Except String Unit) (fuel : Nat) :
    runReceive aid handler (fuel + 1) [] = ⟨[], []⟩ := rfl

theorem runReceive_cons (aid : String) (handler : Dict → Except String Unit) (fuel : Nat)
    (d : Dict) (rest : List Dict) :
    runReceive aid handler (fuel + 1) (d :: rest) =
      ⟨(d, (processOne aid handler d).1, (processOne aid handler d).2) ::
        (runReceive aid handler fuel (nextQueue (processOne aid handler d).1 d rest)).trace,
       (runReceive aid handler fuel (nextQueue (processOne aid handler d).1 d rest)).pending⟩ :=
  rfl

theorem not_mem_nextQueue (act : MsgAction) (d m : Dict) (rest : List Dict)
    (hmd : m ≠ d) (hmr : m ∉ rest) : m ∉ nextQueue act d rest := by
  cases act <;> simp [nextQueue, List.mem_append, hmd, hmr]

theorem runReceive_avoid (aid : String) (handler : Dict → Except String Unit) (m : Dict)
    (fuel : Nat) :
    ∀ q : List Dict, m ∉ q →
      (∀ a n, (m, a, n) ∉ (runReceive aid handler fuel q).trace) ∧
      m ∉ (runReceive aid handler fuel q).pending := by
  induction fuel with
  | zero =>
      intro q hq
      constructor
      · intro a n hmem
        simp [runReceive_zero] at hmem
      · simpa [runReceive_zero] using hq
  | succ f ih =>
      intro q hq
      cases q with
      | nil => constructor <;> simp [runReceive_nil]
      | cons d rest =>
          have hmd : m ≠ d := fun he => hq (by simp [he])
          have hmr : m ∉ rest := fun he => hq (by simp [he])
          obtain ⟨iht, ihp⟩ :=
            ih _ (not_mem_nextQueue (processOne aid handler d).1 d m rest hmd hmr)
          rw [runReceive_cons]
          constructor
          · intro a n hmem
            rcases List.mem_cons.mp hmem with hh | hh
            · exact hmd (congrArg Prod.fst hh)
            · exact iht a n hh
          · exact ihp

/-- Claim C4: dead-letter on handler failure.  When a message addressed to
this receiver has a handler that raises, the receive loop performs exactly one
dead-letter action on it (one trace entry, with exactly one handler
invocation, hence no automatic retry) and never redelivers it: the message
appears nowhere else in the trace and is no longer pending. -/
theorem handler_failure_dead_letter_once (aid : String)
    (handler : Dict → Except String Unit) (m : Dict) (e : String) :
    ∀ (q1 : List Dict) (fuel : Nat) (q2 : List Dict),
      valueIsStr (toAgentField m) aid = true →
      handler m = .error e →
      m ∉ q1 → m ∉ q2 → q1.length < fuel →
      ∃ t1 t2,
        (runReceive aid handler fuel (q1 ++ m :: q2)).trace
          = t1 ++ (m, MsgAction.deadLetter, 1) :: t2 ∧
        (∀ a n, (m, a, n) ∉ t1) ∧ (∀ a n, (m, a, n) ∉ t2) ∧
        m ∉ (runReceive aid handler fuel (q1 ++ m :: q2)).pending := by
  intro q1
  induction q1 with
  | nil =>
      intro fuel q2 haddr hfail h1 h2 hfuel
      cases fuel with
      | zero => omega
      | succ f =>
          have hstep : processOne aid handler m = (.deadLetter, 1) := by
            simp [processOne, haddr, hfail]
          obtain ⟨iht, ihp⟩ := runReceive_avoid aid handler m f q2 h2
          rw [List.nil_append, runReceive_cons, hstep]
          exact ⟨[], (runReceive aid handler f q2).trace, rfl, by simp, iht, ihp⟩
  | cons d q1' ih =>
      intro fuel q2 haddr hfail h1 h2 hfuel
      have hmd : m ≠ d := fun he => h1 (by simp [he])
      have hm1 : m ∉ q1' := fun he => h1 (by simp [he])
      cases fuel with
      | zero => omega
      | succ f =>
          have hf : q1'.length < f := by
            simp only [List.length_cons] at hfuel
            omega
          rw [List.cons_append, runReceive_cons]
          cases hact : (processOne aid handler d).1 with
          | abandon =>
              have heq : nextQueue MsgAction.abandon d (q1' ++ m :: q2)
                  = q1' ++ m :: (q2 ++ [d]) := by
                simp [nextQueue]
              have h2d : m ∉ q2 ++ [d] := by
                intro hc
                rcases List.mem_append.mp hc with hc | hc
                · exact h2 hc
                · simp at hc
                  exact hmd hc
              obtain ⟨t1, t2, ht, hnt1, hnt2, hp⟩ := ih f (q2 ++ [d]) haddr hfail hm1 h2d hf
              refine ⟨(d, MsgAction.abandon, (processOne aid handler d).2) :: t1,
                t2, ?_, ?_, hnt2, ?_⟩
              · show (d, MsgAction.abandon, (processOne aid handler d).2) ::
                  (runReceive aid handler f (nextQueue MsgAction.abandon d (q1' ++ m :: q2))).trace
                    = _
                rw [heq, ht, List.cons_append]
              · intro a n hmem
                rcases List.mem_cons.mp hmem with hh | hh
                · exact hmd (congrArg Prod.fst hh)
                · exact hnt1 a n hh
              · show m ∉
                  (runReceive aid handler f (nextQueue MsgAction.abandon d (q1' ++ m :: q2))).pending
                rw [heq]
                exact hp
          | complete =>
              have heq : nextQueue MsgAction.complete d (q1' ++ m :: q2) = q1' ++ m :: q2 := rfl
              obtain ⟨t1, t2, ht, hnt1, hnt2, hp⟩ := ih f q2 haddr hfail hm1 h2 hf
              refine ⟨(d, MsgAction.complete, (processOne aid handler d).2) :: t1,
                t2, ?_, ?_, hnt2, ?_⟩
              · show (d, MsgAction.complete, (processOne aid handler d).2) ::
                  (runReceive aid handler f (nextQueue MsgAction.complete d (q1' ++ m :: q2))).trace
                    = _
                rw [heq, ht, List.cons_append]
              · intro a n hmem
                rcases List.mem_cons.mp hmem with hh | hh
                · exact hmd (congrArg Prod.fst hh)
                · exact hnt1 a n hh
              · show m ∉
                  (runReceive aid handler f (nextQueue MsgAction.complete d (q1' ++ m :: q2))).pending
                rw [heq]
                exact hp
          | deadLetter =>
              have heq : nextQueue MsgAction.deadLetter d (q1' ++ m :: q2) = q1' ++ m :: q2 := rfl
              obtain ⟨t1, t2, ht, hnt1, hnt2, hp⟩ := ih f q2 haddr hfail hm1 h2 hf
              refine ⟨(d, MsgAction.deadLetter, (processOne aid handler d).2) :: t1,
                t2, ?_, ?_, hnt2, ?_⟩
              · show (d, MsgAction.deadLetter, (processOne aid handler d).2) ::
                  (runReceive aid handler f
                    (nextQueue MsgAction.deadLetter d (q1' ++ m :: q2))).trace = _
                rw [heq, ht, List.cons_append]
              · intro a n hmem
                rcases List.mem_cons.mp hmem with hh | hh
                · exact hmd (congrArg Prod.fst hh)
                · exact hnt1 a n hh
              · show m ∉
                  (runReceive aid handler f
                    (nextQueue MsgAction.deadLetter d (q1' ++ m :: q2))).pending
                rw [heq]
                exact hp

/-- Witness for C4 at a concrete queue: behind one message addressed to
another worker, a message for "scap-agent" whose handler raises is removed
from the subscription (dead-lettered, not redelivered). -/
theorem handler_failure_dead_letter_once_witness :
    [("to_agent", Value.str "scap-agent")] ∉
      (runReceive "scap-agent" (fun _ => Except.error "boom") 3
        [[("to_agent", Value.str "extractor-agent")],
         [("to_agent", Value.str "scap-agent")]]).pending := by
  obtain ⟨t1, t2, ht, hn1, hn2, hp⟩ :=
    handler_failure_dead_letter_once "scap-agent" (fun _ => Except.error "boom")
      [("to_agent", Value.str "scap-agent")] "boom"
      [[("to_agent", Value.str "extractor-agent")]] 3 []
      rfl rfl (by simp) (by simp) (by decide)
  exact hp

/-- Claim C2: routing on the shared subscription.  For every decoded message,
the handler is invoked exactly when the wire `to_agent` equals the receiving
worker's `agent_id`; a mismatch is abandoned with the handler never invoked;
and a dispatched message is completed (permanently removed) exactly when the
handler returns normally (a raising handler is the dead-letter path of C4). -/
theorem receive_routing_by_to_agent (agent_id : String)
    (handler : Dict → Except String Unit) (d : Dict) :
    ((processOne agent_id handler d).2 = 1 ↔ valueIsStr (toAgentField d) agent_id = true) ∧
    (valueIsStr (toAgentField d) agent_id = false →
      (processOne agent_id handler d).1 = .abandon ∧ (processOne agent_id handler d).2 = 0) ∧
    ((processOne agent_id handler d).1 = .complete ↔
      (valueIsStr (toAgentField d) agent_id = true ∧ handler d = .ok ())) := by
  by_cases h : valueIsStr (toAgentField d) agent_id = true
  · cases hh : handler d with
    | ok u => cases u; simp [processOne, h, hh]
    | error e => simp [processOne, h, hh]
  · simp [processOne, h]

/-- Witness for C2 at concrete inputs: a wrapper addressed to "scap-agent" is
completed by the receiver registered as "scap-agent", and the same wrapper is
abandoned, with zero handler invocations, by the receiver registered as
"extractor-agent". -/
theorem receive_routing_by_to_agent_witness :
    (processOne "scap-agent" (fun _ => .ok ()) [("to_agent", .str "scap-agent")]).1 =
      MsgAction.complete ∧
    (processOne "extractor-agent" (fun _ => .ok ()) [("to_agent", .str "scap-agent")]).1 =
      MsgAction.abandon ∧
    (processOne "extractor-agent" (fun _ => .ok ()) [("to_agent", .str "scap-agent")]).2 = 0 := by
  refine ⟨?_, ?_, ?_⟩
  · exact (receive_routing_by_to_agent "scap-agent" (fun _ => .ok ())
      [("to_agent", .str "scap-agent")]).2.2.mpr ⟨rfl, rfl⟩
  · exact ((receive_routing_by_to_agent "extractor-agent" (fun _ => .ok ())
      [("to_agent", .str "scap-agent")]).2.1 rfl).1
  · exact ((receive_routing_by_to_agent "extractor-agent" (fun _ => .ok ())
      [("to_agent", .str "scap-agent")]).2.1 rfl).2

/-! ## Deep Cycle nodes (shared/deep_agent.py, agents/base_agent.py)

The decision-support model is an external collaborator (spec section 6)
producing free text; it is modelled as an optional function from the cycle
state to the raw response text, with `none` meaning no provider configured.
Prompt template rendering is part of that external collaborator and is
absorbed into the function. -/

/-- `DeepAgent._perceive_node`.  Without a model it stores the canned
perception; with a model it stores the raw response text as understanding
(the model invocation is pure here, so the except-branch of the source is
unreachable in the embedding). -/
def perceive_node (llm : Option (Dict → String)) (state : Dict) : Dict :=
  match llm with
  | none =>
      dictSet state "perception" (.obj
        [("understanding", .str "Basic perception without LLM"),
         ("relevant_context", (dictGet state "context").getD (.obj [])),
         ("priority", .str "medium")])
  | some f =>
      let t := f state
      dictSet state "perception" (.obj
        [("understanding", .str t),
         ("relevant_context", (dictGet state "context").getD (.obj [])),
         ("priority", .str "medium"),
         ("raw_response", .str t)])

/-- Python `s[:200]`. -/
def strTake (s : String) (n : Nat) : String := ⟨s.data.take n⟩

/-- `DeepAgent._plan_node`.  Without a model it stores the single fixed
fallback step; with a model it wraps the raw response into exactly one
synthetic step. -/
def plan_node (llm : Option (Dict → String)) (state : Dict) : Dict :=
  match llm with
  | none =>
      dictSet state "plan" (.arr
        [.obj [("action", .str "execute_task"), ("description", .str "Execute assigned task")]])
  | some f =>
      dictSet state "plan" (.arr
        [.obj [("step_number", .num 1),
               ("action", .str "execute_task"),
               ("tool_or_agent", .str "self"),
               ("description", .str (strTake (f state) 200)),
               ("expected_outcome", .str "Task completion")]])

/-- `BaseAgent._deep_execute_node`: runs the worker-specific execution
capability (`execute_task_from_state`), storing a success result, or catching
any exception and storing an error result with the exception message.  `now`
is `datetime.utcnow().isoformat()`. -/
def deep_execute_node (execute_task : Dict → Except String Value) (now : String)
    (state : Dict) : Dict :=
  match execute_task state with
  | .ok result =>
      dictSet state "execution_results" (.arr
        [.obj [("status", .str "success"), ("result", result), ("timestamp", .str now)]])
  | .error e =>
      dictSet state "execution_results" (.arr
        [.obj [("status", .str "error"), ("error", .str e), ("timestamp", .str now)]])

/-- `DeepAgent._learn_node` in the no-model branch: canned lessons.  (The
model branch asks the model to summarize and appends a conversation record;
only the degraded branch is needed by the claims.) -/
def learn_node_fallback (state : Dict) : Dict :=
  dictSet state "learning" (.obj
    [("outcome", .str "completed"),
     ("lessons", .arr [.str "Task executed"]),
     ("context_updates", .obj [])])

/-- Claim C5: Deep Cycle EXECUTE totality.  For every state and every
execution capability, the EXECUTE node stores exactly one execution result
whose status is "success" or, when the capability raises, "error" together
with the exception message; the node is a total function, so the LEARN node
still runs afterwards (shown on the degraded LEARN branch). -/
theorem deep_execute_totality (execute_task : Dict → Except String Value)
    (now : String) (state : Dict) :
    (∃ kvs : Dict,
      dictGet (deep_execute_node execute_task now state) "execution_results"
          = some (.arr [.obj kvs]) ∧
      (dictGet kvs "status" = some (.str "success") ∨
        ∃ e, execute_task state = .error e ∧
          dictGet kvs "status" = some (.str "error") ∧
          dictGet kvs "error" = some (.str e))) ∧
    dictGet (learn_node_fallback (deep_execute_node execute_task now state)) "learning"
        = some (.obj
            [("outcome", .str "completed"),
             ("lessons", .arr [.str "Task executed"]),
             ("context_updates", .obj [])]) := by
  constructor
  · cases hrun : execute_task state with
    | ok result =>
        refine ⟨[("status", .str "success"), ("result", result), ("timestamp", .str now)], ?_, ?_⟩
        · simp [deep_execute_node, hrun, dictGet_dictSet_self]
        · left
          rfl
    | error e =>
        refine ⟨[("status", .str "error"), ("error", .str e), ("timestamp", .str now)], ?_, ?_⟩
        · simp [deep_execute_node, hrun, dictGet_dictSet_self]
        · right
          exact ⟨e, rfl, rfl, rfl⟩
  · exact dictGet_dictSet_self _ _ _

/-- Claim C9, counterexample: without a configured model the PERCEIVE phase
sets the perception understanding to the string "Basic perception without
LLM", not to "basic" as the claim states (shown at the empty initial state). -/
theorem perceive_fallback_counterexample :
    dictGet (perceive_node none []) "perception" =
      some (.obj
        [("understanding", .str "Basic perception without LLM"),
         ("relevant_context", .obj []),
         ("priority", .str "medium")]) ∧
    Value.str "Basic perception without LLM" ≠ Value.str "basic" :=
  ⟨rfl, by simp⟩

/-! ## Screening rule engine and summary (agents/scap_agent.py) -/

/-- The loaded SCAP rules (`scap_rules.yaml`); YAML parsing is external, the
typed fields mirror the keys the engine reads.  `risk_threshold` is `none`
when the key is absent from the rules file. -/
structure ScapRules where
  sensitive_countries : List String
  sensitive_jurisdictions : List String
  risk_threshold : Option Rat

/-- `RuleEngine`: the loaded rules plus `Config.SCAP_RULE_THRESHOLD`
(default 1000.0). -/
structure RuleEngine where
  rules : ScapRules
  threshold : Rat

/-- `rules.get("risk_threshold", self.threshold)` as read by
`exceeds_threshold`. -/
def RuleEngine.effective_threshold (e : RuleEngine) : Rat :=
  e.rules.risk_threshold.getD e.threshold

/-- `RuleEngine.is_sensitive_country`. -/
def RuleEngine.is_sensitive_country (e : RuleEngine) (country : String) : Bool :=
  (e.rules.sensitive_countries.map pyUpper).contains (pyUpper country)

/-- `RuleEngine.is_sensitive_jurisdiction`. -/
def RuleEngine.is_sensitive_jurisdiction (e : RuleEngine) (jurisdiction : String) : Bool :=
  (e.rules.sensitive_jurisdictions.map pyUpper).contains (pyUpper jurisdiction)

/-- `RuleEngine.exceeds_threshold`: strictly greater than the threshold. -/
def RuleEngine.exceeds_threshold (e : RuleEngine) (amount : Rat) : Bool :=
  decide (e.effective_threshold < amount)

/-- Python `float(v)` on the values the pipeline produces: numbers pass
through, booleans coerce, and null or containers raise TypeError.  Numeric
strings, which Python would parse, are not modelled (no pipeline value or
claim exercises them). -/
def pyFloat : Value → Option Rat
  | .num q => some q
  | .bool b => some (if b then 1 else 0)
  | _ => none

/-- Python repr of a float used inside f-strings: exact for integral values
(str(1000.0) is "1000.0"); non-integral values, which no claim exercises, are
rendered as a fraction. -/
def pyFloatRepr (q : Rat) : String :=
  if q.den = 1 then toString q.num ++ ".0" else toString q.num ++ "/" ++ toString q.den

/-- Python `sep.join(strings)`. -/
def joinWith (sep : String) : List String → String
  | [] => ""
  | [x] => x
  | x :: xs => x ++ sep ++ joinWith sep xs

/-- `RuleEngine._get_risk_reason`. -/
def RuleEngine.get_risk_reason (e : RuleEngine) (isc isj ext : Bool) : String :=
  let reasons :=
    (if isc then ["Sensitive country"] else []) ++
    (if isj then ["Sensitive jurisdiction"] else []) ++
    (if ext then ["Amount exceeds threshold (" ++ pyFloatRepr e.threshold ++ ")"] else [])
  if reasons.isEmpty then "No risk" else joinWith "; " reasons

/-- `RuleEngine.evaluate_transaction`: `none` models the raising paths
(non-string country/jurisdiction, non-numeric amount). -/
def RuleEngine.evaluate_transaction (e : RuleEngine) (t : Dict) : Option Dict := do
  let country0 ← pyGetStr t "country" ""
  let country := pyUpper country0
  let jurisdiction0 ← pyGetStr t "jurisdiction" ""
  let jurisdiction := pyUpper jurisdiction0
  let amount ← pyFloat ((dictGet t "amount").getD (.num 0))
  let account := (dictGet t "account").getD (.str "")
  let isc := e.is_sensitive_country country
  let isj := e.is_sensitive_jurisdiction jurisdiction
  let ext := e.exceeds_threshold amount
  let flagged := (isc || isj) && ext
  some [("transaction_id", (dictGet t "transaction_id").getD .null),
        ("account", account),
        ("country", .str country),
        ("jurisdiction", .str jurisdiction),
        ("amount", .num amount),
        ("is_sensitive_country", .bool isc),
        ("is_sensitive_jurisdiction", .bool isj),
        ("exceeds_threshold", .bool ext),
        ("risk_flagged", .bool flagged),
        ("risk_reason", .str (e.get_risk_reason isc isj ext))]

/- Python `==` on values: the dictionary key comparison in the summary's
per-country counter. -/
mutual
/-- Structural equality test on values. -/
def Value.beq : Value → Value → Bool
  | .null, .null => true
  | .bool a, .bool b => a == b
  | .num a, .num b => a == b
  | .str a, .str b => a == b
  | .arr a, .arr b => beqValues a b
  | .obj a, .obj b => beqPairs a b
  | _, _ => false
def beqValues : List Value → List Value → Bool
  | [], [] => true
  | x :: xs, y :: ys => Value.beq x y && beqValues xs ys
  | _, _ => false
def beqPairs : List (String × Value) → List (String × Value) → Bool
  | [], [] => true
  | (k1, v1) :: xs, (k2, v2) :: ys => k1 == k2 && Value.beq v1 v2 && beqPairs xs ys
  | _, _ => false
end

/-- Python `str(v)` inside an f-string, for the value shapes the summary
renders (country codes are strings; container reprs are not modelled). -/
def pyStr : Value → String
  | .str s => s
  | .bool b => if b then "True" else "False"
  | .null => "None"
  | .num q => pyFloatRepr q
  | .arr _ => "[...]"
  | .obj _ => "\x7b...\x7d"

/-- `txn.get("country", "Unknown")`. -/
def countryOf (t : Dict) : Value := (dictGet t "country").getD (.str "Unknown")

/-- `countries[country] = countries.get(country, 0) + 1`, preserving the
first-seen insertion order of Python dicts. -/
def bumpCountry : List (Value × Nat) → Value → List (Value × Nat)
  | [], c => [(c, 1)]
  | (k, n) :: rest, c =>
      if Value.beq k c then (k, n + 1) :: rest else (k, n) :: bumpCountry rest c

/-- The per-country counting loop of `_generate_fallback_summary`. -/
def countByCountry (ts : List Dict) : List (Value × Nat) :=
  ts.foldl (fun acc t => bumpCountry acc (countryOf t)) []

/-- `sum(txn.get("amount", 0) for txn in flagged_transactions)`; a non-numeric
amount would raise TypeError. -/
def sumAmounts : List Dict → Option Rat
  | [] => some 0
  | t :: ts => do
      let q ← pyFloat ((dictGet t "amount").getD (.num 0))
      let s ← sumAmounts ts
      some (q + s)

/-- Python format `:,.2f`: two decimals with thousands separators.  Ties are
rounded up rather than to even; no claim depends on tie behavior. -/
def roundCents (q : Rat) : Int := Rat.floor (q * 100 + 1 / 2)

/-- Thousands grouping of a reversed digit string. -/
def groupRev : List Char → List Char
  | c1 :: c2 :: c3 :: c4 :: rest => c1 :: c2 :: c3 :: ',' :: groupRev (c4 :: rest)
  | l => l

/-- Insert thousands separators into a digit string. -/
def commaGroup (s : String) : String := ⟨(groupRev s.data.reverse).reverse⟩

/-- Render a monetary amount as Python `f"{x:,.2f}"` does. -/
def formatMoney (q : Rat) : String :=
  let c := roundCents q
  let sign := if c < 0 then "-" else ""
  let n := c.natAbs
  let frac := n % 100
  sign ++ commaGroup (toString (n / 100)) ++ "." ++
    (if frac < 10 then "0" ++ toString frac else toString frac)

/-- `SCAPAgent._generate_fallback_summary`.  The f-string is assembled from
the same segments in the same order; `none` models the TypeError a
non-numeric amount would raise inside `sum`. -/
def generate_fallback_summary (flagged : List Dict) (case_id : String) : Option String :=
  if flagged.isEmpty then
    some ("Case " ++ case_id ++ ": No transactions flagged for risk.")
  else do
    let total ← sumAmounts flagged
    let n := flagged.length
    let lines := (countByCountry flagged).map
      (fun kc => "  - " ++ pyStr kc.1 ++ ": " ++ toString kc.2 ++ " transactions")
    some ("Case " ++ case_id ++ " - SCAP Analysis Summary\n\n" ++
      "Total Flagged Transactions: " ++ toString n ++
      "\nTotal Flagged Amount: $" ++ formatMoney total ++
      "\n\nFlagged Transactions by Country:\n" ++ joinWith "\n" lines ++
      "\n\nRisk Assessment: " ++ toString n ++
      " transaction(s) flagged due to sensitive country/jurisdiction and amount exceeding threshold.\n")

/-- `SCAPAgent._generate_summary`: without a configured model it falls back
deterministically; with a model it returns the model text (prompt rendering
absorbed into the collaborator function). -/
def generate_summary (llm : Option (List Dict → String → String)) (flagged : List Dict)
    (case_id : String) : Option String :=
  match llm with
  | none => generate_fallback_summary flagged case_id
  | some f => some (f flagged case_id)

/-- Claim C10: threshold boundary.  A transaction is flagged only when its
amount is strictly greater than the effective risk threshold; an amount
exactly equal to the threshold is never flagged regardless of country or
jurisdiction; and a transaction missing the amount field is treated as
amount 0 and (for the nonnegative thresholds the configuration uses) never
flagged. -/
theorem threshold_strict_boundary (e : RuleEngine) (t r : Dict)
    (hr : e.evaluate_transaction t = some r) :
    (∀ q : Rat, pyFloat ((dictGet t "amount").getD (.num 0)) = some q →
      (dictGet r "risk_flagged" = some (.bool true) → e.effective_threshold < q) ∧
      (q = e.effective_threshold → dictGet r "risk_flagged" = some (.bool false))) ∧
    (dictGet t "amount" = none →
      dictGet r "amount" = some (.num 0) ∧
      (0 ≤ e.effective_threshold → dictGet r "risk_flagged" = some (.bool false))) := by
  cases h1 : pyGetStr t "country" "" with
  | none => simp [RuleEngine.evaluate_transaction, h1] at hr
  | some c =>
  cases h2 : pyGetStr t "jurisdiction" "" with
  | none => simp [RuleEngine.evaluate_transaction, h1, h2] at hr
  | some j =>
  cases h3 : pyFloat ((dictGet t "amount").getD (.num 0)) with
  | none => simp [RuleEngine.evaluate_transaction, h1, h2, h3] at hr
  | some q0 =>
  simp only [RuleEngine.evaluate_transaction, h1, h2, h3, Option.bind_eq_bind,
    Option.some_bind, Option.some.injEq] at hr
  subst hr
  constructor
  · intro q hq
    have hq0 : q0 = q := Option.some.inj hq
    subst hq0
    constructor
    · intro hflag
      simp [dictGet, alGet, RuleEngine.exceeds_threshold] at hflag
      exact hflag.2
    · intro heq
      simp [dictGet, alGet, RuleEngine.exceeds_threshold, heq]
  · intro hmiss
    rw [hmiss] at h3
    have hq0 : q0 = 0 := by
      simpa [pyFloat] using h3.symm
    subst hq0
    refine ⟨by simp [dictGet, alGet], fun hnn => ?_⟩
    simp [dictGet, alGet, RuleEngine.exceeds_threshold, not_lt.mpr hnn]

/-- Witness for C10 at a concrete engine (threshold 1000, sensitive
jurisdiction IRAN): a transaction with a missing amount is not flagged, and a
transaction whose amount equals the threshold exactly is not flagged. -/
theorem threshold_strict_boundary_witness :
    ((RuleEngine.mk ⟨["IRAN"], ["IRAN"], some 1000⟩ 1000).evaluate_transaction
        [("country", Value.str "IRAN")]).map (fun r => dictGet r "risk_flagged")
      = some (some (Value.bool false)) ∧
    ((RuleEngine.mk ⟨["IRAN"], ["IRAN"], some 1000⟩ 1000).evaluate_transaction
        [("country", Value.str "IRAN"), ("amount", Value.num 1000)]).map
        (fun r => dictGet r "risk_flagged")
      = some (some (Value.bool false)) := by
  constructor
  · obtain ⟨r, hr⟩ : ∃ r, (RuleEngine.mk ⟨["IRAN"], ["IRAN"], some 1000⟩ 1000).evaluate_transaction
        [("country", Value.str "IRAN")] = some r := ⟨_, rfl⟩
    have h := ((threshold_strict_boundary _ _ r hr).2 rfl).2 (by norm_num [RuleEngine.effective_threshold])
    rw [hr]
    simp [h]
  · obtain ⟨r, hr⟩ : ∃ r, (RuleEngine.mk ⟨["IRAN"], ["IRAN"], some 1000⟩ 1000).evaluate_transaction
        [("country", Value.str "IRAN"), ("amount", Value.num 1000)] = some r := ⟨_, rfl⟩
    have h := ((threshold_strict_boundary _ _ r hr).1 1000 rfl).2
      (by norm_num [RuleEngine.effective_threshold])
    rw [hr]
    simp [h]

theorem sumAmounts_total (l : List Dict)
    (h : ∀ t ∈ l, ∃ q, pyFloat ((dictGet t "amount").getD (.num 0)) = some q) :
    ∃ s, sumAmounts l = some s := by
  induction l with
  | nil => exact ⟨0, rfl⟩
  | cons t ts ih =>
      obtain ⟨q, hq⟩ := h t (by simp)
      obtain ⟨s, hs⟩ := ih (fun u hu => h u (by simp [hu]))
      exact ⟨q + s, by simp [sumAmounts, hq, hs]⟩

/-- Claim C8: degraded-mode screening summary.  With no decision-support
model configured, summary generation returns the deterministic fallback (a
pure function of the flagged list and the case id): the exact no-risk string
containing the case id when nothing is flagged, and otherwise a report that
contains the case id and the flagged count.  The amount hypothesis mirrors
the pipeline, whose flagged entries always carry a numeric amount. -/
theorem fallback_summary_spec (flagged : List Dict) (cid : String)
    (hnum : ∀ t ∈ flagged, ∃ q, pyFloat ((dictGet t "amount").getD (.num 0)) = some q) :
    ∃ s, generate_summary none flagged cid = some s ∧
      generate_fallback_summary flagged cid = some s ∧
      strContainsP s cid ∧
      (flagged = [] → s = "Case " ++ cid ++ ": No transactions flagged for risk.") ∧
      (flagged ≠ [] →
        strContainsP s ("Total Flagged Transactions: " ++ toString flagged.length)) := by
  cases flagged with
  | nil =>
      refine ⟨"Case " ++ cid ++ ": No transactions flagged for risk.",
        rfl, rfl, ?_, fun _ => rfl, fun h => absurd rfl h⟩
      exact ⟨"Case ", ": No transactions flagged for risk.", String.append_assoc _ _ _⟩
  | cons t ts =>
      obtain ⟨total, htot⟩ := sumAmounts_total (t :: ts) hnum
      refine ⟨"Case " ++ cid ++ " - SCAP Analysis Summary\n\n" ++
        "Total Flagged Transactions: " ++ toString (t :: ts).length ++
        "\nTotal Flagged Amount: $" ++ formatMoney total ++
        "\n\nFlagged Transactions by Country:\n" ++
        joinWith "\n" ((countByCountry (t :: ts)).map
          (fun kc => "  - " ++ pyStr kc.1 ++ ": " ++ toString kc.2 ++ " transactions")) ++
        "\n\nRisk Assessment: " ++ toString (t :: ts).length ++
        " transaction(s) flagged due to sensitive country/jurisdiction and amount exceeding threshold.\n",
        ?_, ?_, ?_, ?_, ?_⟩
      · show generate_fallback_summary (t :: ts) cid = _
        simp [generate_fallback_summary, htot]
      · simp [generate_fallback_summary, htot]
      · refine ⟨"Case ", ?_, ?_⟩
        · exact " - SCAP Analysis Summary\n\n" ++
            "Total Flagged Transactions: " ++ toString (t :: ts).length ++
            "\nTotal Flagged Amount: $" ++ formatMoney total ++
            "\n\nFlagged Transactions by Country:\n" ++
            joinWith "\n" ((countByCountry (t :: ts)).map
              (fun kc => "  - " ++ pyStr kc.1 ++ ": " ++ toString kc.2 ++ " transactions")) ++
            "\n\nRisk Assessment: " ++ toString (t :: ts).length ++
            " transaction(s) flagged due to sensitive country/jurisdiction and amount exceeding threshold.\n"
        · simp only [String.append_assoc]
      · intro h
        exact absurd h (by simp)
      · intro _
        refine ⟨"Case " ++ cid ++ " - SCAP Analysis Summary\n\n", ?_, ?_⟩
        · exact "\nTotal Flagged Amount: $" ++ formatMoney total ++
            "\n\nFlagged Transactions by Country:\n" ++
            joinWith "\n" ((countByCountry (t :: ts)).map
              (fun kc => "  - " ++ pyStr kc.1 ++ ": " ++ toString kc.2 ++ " transactions")) ++
            "\n\nRisk Assessment: " ++ toString (t :: ts).length ++
            " transaction(s) flagged due to sensitive country/jurisdiction and amount exceeding threshold.\n"
        · simp only [String.append_assoc]

/-- Witness for C8 at concrete inputs: with no model configured and nothing
flagged, the screening summary is the exact fallback string for the case. -/
theorem fallback_summary_spec_witness :
    generate_summary none ([] : List Dict) "CASE-001" =
      some "Case CASE-001: No transactions flagged for risk." := by
  obtain ⟨s, h1, h2, h3, h4, h5⟩ :=
    fallback_summary_spec [] "CASE-001" (by simp)
  rw [h1, h4 rfl]
  rfl

/-! ## Workflow state store (shared/state_manager.py) -/

/-- The keys of the `TransactionReviewState` TypedDict: the known Workflow
State schema (`TransactionReviewState.__annotations__`). -/
def schemaKeys : List String :=
  ["case_id", "file_path", "transactions", "extracted_transactions", "scap_results",
   "summary", "status", "error", "conversation_id", "current_agent", "timestamp"]

/-- The state container: records keyed by (agent namespace, state id).  All
writes are blind upserts. -/
abbrev Store := List ((String × String) × Dict)

/-- `StateManager.save_state` through the storage port. -/
def save_state (st : Store) (agent_id state_id : String) (state : Dict) : Store :=
  alSet st (agent_id, state_id) state

/-- `StateManager.load_state`: the Python truthiness check on the loaded
record makes an empty stored record behave as missing. -/
def load_state (st : Store) (agent_id state_id : String) : Option Dict :=
  match alGet st (agent_id, state_id) with
  | some d => if d.isEmpty then none else some d
  | none => none

/-- The merge loop of `update_state`: only keys of the known schema are
overwritten; unrecognized keys are ignored. -/
def applyUpdates (current : Dict) (updates : List (String × Value)) : Dict :=
  updates.foldl (fun acc kv => if kv.1 ∈ schemaKeys then dictSet acc kv.1 kv.2 else acc)
    current

/-- `StateManager.update_state`: ValueError on an unknown id (nothing
written, the store returned unchanged); otherwise a whole-record
read-modify-write with a fresh timestamp, returning the merged record. -/
def update_state (st : Store) (agent_id state_id : String)
    (updates : List (String × Value)) (now : String) : Except String Dict × Store :=
  match load_state st agent_id state_id with
  | none => (.error ("State not found: " ++ state_id), st)
  | some current =>
      let merged := dictSet (applyUpdates current updates) "timestamp" (.str now)
      (.ok merged, save_state st agent_id state_id merged)

theorem alGet_eq_none {κ α : Type} [DecidableEq κ] (l : List (κ × α)) (k : κ)
    (h : k ∉ l.map Prod.fst) : alGet l k = none := by
  induction l with
  | nil => rfl
  | cons kv rest ih =>
      have h0 : ¬ (kv.1 = k) := by
        intro he
        exact h (by simp [he.symm])
      have h1 : k ∉ rest.map Prod.fst := fun he => h (by simp [he])
      simp [alGet, h0, ih h1]

theorem applyUpdates_spec (updates : List (String × Value))
    (hnod : (updates.map Prod.fst).Nodup) :
    ∀ (current : Dict) (k : String),
      dictGet (applyUpdates current updates) k =
        if k ∈ schemaKeys then
          match alGet updates k with
          | some v => some v
          | none => dictGet current k
        else dictGet current k := by
  induction updates with
  | nil =>
      intro current k
      by_cases hk : k ∈ schemaKeys <;> simp [applyUpdates, alGet, hk]
  | cons kv us ih =>
      obtain ⟨k0, v0⟩ := kv
      intro current k
      rw [List.map_cons, List.nodup_cons] at hnod
      obtain ⟨h0, hnod'⟩ := hnod
      have hstep : applyUpdates current ((k0, v0) :: us)
          = applyUpdates (if k0 ∈ schemaKeys then dictSet current k0 v0 else current) us := by
        simp only [applyUpdates, List.foldl_cons]
      by_cases hkk : k = k0
      · subst hkk
        have hnone : alGet us k = none := alGet_eq_none us k h0
        rw [hstep, ih hnod', hnone]
        by_cases hs : k ∈ schemaKeys
        · simp [hs, alGet, dictGet_dictSet_self]
        · simp [hs, alGet]
      · have hget : dictGet (if k0 ∈ schemaKeys then dictSet current k0 v0 else current) k
            = dictGet current k := by
          by_cases hs : k0 ∈ schemaKeys
          · simp [hs, dictGet_dictSet_ne _ _ _ _ hkk]
          · simp [hs]
        rw [hstep, ih hnod', hget]
        have hne : ¬ (k0 = k) := fun he => hkk he.symm
        have : alGet ((k0, v0) :: us) k = alGet us k := by
          simp [alGet, hne]
        rw [this]

/-- Claim C3: `update_state` on an unknown id raises StateNotFound (the
ValueError "State not found: ...") and writes nothing; on a known id it
returns and writes back the whole merged record, in which exactly the
schema keys present in the update are overwritten, unrecognized update keys
are ignored, and the timestamp is freshly stamped. -/
theorem update_state_merge_spec (st : Store) (ns id : String)
    (updates : List (String × Value)) (now : String)
    (hnod : (updates.map Prod.fst).Nodup) :
    (load_state st ns id = none →
      update_state st ns id updates now = (.error ("State not found: " ++ id), st)) ∧
    (∀ current, load_state st ns id = some current →
      ∃ merged,
        update_state st ns id updates now = (.ok merged, save_state st ns id merged) ∧
        dictGet merged "timestamp" = some (.str now) ∧
        ∀ k, k ≠ "timestamp" →
          dictGet merged k =
            if k ∈ schemaKeys then
              match alGet updates k with
              | some v => some v
              | none => dictGet current k
            else dictGet current k) := by
  constructor
  · intro h
    simp [update_state, h]
  · intro current h
    refine ⟨dictSet (applyUpdates current updates) "timestamp" (.str now), ?_, ?_, ?_⟩
    · simp [update_state, h]
    · exact dictGet_dictSet_self _ _ _
    · intro k hk
      rw [dictGet_dictSet_ne _ _ _ _ hk]
      exact applyUpdates_spec updates hnod current k

/-- Witness for C3 at a concrete store: updating a known record succeeds
while an unknown id yields the StateNotFound error with the store unchanged. -/
theorem update_state_merge_spec_witness :
    (update_state [(("orchestration-agent", "conv-1"),
        [("status", Value.str "initialized"), ("case_id", Value.str "CASE-001")])]
      "orchestration-agent" "conv-1"
      [("status", Value.str "completed"), ("bogus", Value.str "x")] "T2").1.isOk = true ∧
    (update_state [(("orchestration-agent", "conv-1"),
        [("status", Value.str "initialized"), ("case_id", Value.str "CASE-001")])]
      "orchestration-agent" "conv-9"
      [("status", Value.str "completed"), ("bogus", Value.str "x")] "T2")
      = (.error "State not found: conv-9",
         [(("orchestration-agent", "conv-1"),
           [("status", Value.str "initialized"), ("case_id", Value.str "CASE-001")])]) := by
  constructor
  · obtain ⟨m, heq, ht, hm⟩ :=
      (update_state_merge_spec [(("orchestration-agent", "conv-1"),
          [("status", Value.str "initialized"), ("case_id", Value.str "CASE-001")])]
        "orchestration-agent" "conv-1"
        [("status", Value.str "completed"), ("bogus", Value.str "x")] "T2"
        (by decide)).2
        [("status", Value.str "initialized"), ("case_id", Value.str "CASE-001")] rfl
    rw [heq]
    rfl
  · exact (update_state_merge_spec [(("orchestration-agent", "conv-1"),
        [("status", Value.str "initialized"), ("case_id", Value.str "CASE-001")])]
      "orchestration-agent" "conv-9"
      [("status", Value.str "completed"), ("bogus", Value.str "x")] "T2"
      (by decide)).1 rfl

/-! ## Pipeline stages (config.py, agents/orchestration_agent.py,
agents/scap_agent.py) -/

/-- `Config.ORCHESTRATION_AGENT_ID`. -/
def ORCHESTRATION_AGENT_ID : String := "orchestration-agent"

/-- `StateManager.create_initial_state`: builds the initial Workflow State
record and saves it under the literal namespace "orchestration" (not
`Config.ORCHESTRATION_AGENT_ID`), keyed by the conversation id.  `uuid4` is
the generated conversation id used when none is supplied; `now` is the
timestamp. -/
def create_initial_state (st : Store) (case_id file_path : String)
    (conversation_id : Option String) (uuid4 now : String) : Dict × Store :=
  let conv := conversation_id.getD uuid4
  let state : Dict :=
    [("case_id", .str case_id), ("file_path", .str file_path),
     ("transactions", .arr []), ("extracted_transactions", .arr []),
     ("scap_results", .null), ("summary", .null),
     ("status", .str "initialized"), ("error", .null),
     ("conversation_id", .str conv),
     ("current_agent", .str "orchestration"),
     ("timestamp", .str now)]
  (state, save_state st "orchestration" conv state)

/-- Evaluation of a transaction list (`[evaluate_transaction(t) for t in
transactions]`); a non-dictionary entry raises. -/
def evalTransactions (e : RuleEngine) : List Value → Option (List Dict)
  | [] => some []
  | .obj t :: rest => do
      let r ← e.evaluate_transaction t
      let rs ← evalTransactions e rest
      some (r :: rs)
  | _ :: _ => none

/-- `r.get("risk_flagged", False)` truthiness, the flagged filter. -/
def isFlagged (r : Dict) : Bool := pyTruthy ((dictGet r "risk_flagged").getD (.bool false))

/-- The string used for keys read from the deep state
(`state.get("task_id", "")` and similar); a non-string value is not a valid
storage key. -/
def stateStr (state : Dict) (k : String) : String :=
  match dictGet state k with
  | some (.str s) => s
  | _ => ""

/-- `SCAPAgent.execute_task_from_state`: saves the Langgraph state under the
worker's own namespace, reads case id and transactions from the payload,
loads the Workflow State under `Config.ORCHESTRATION_AGENT_ID`, raising
"State not found for case ..." when missing; otherwise evaluates every
transaction, generates the summary, and writes scap_results, summary and
status "completed" back through `update_state`.  Failure messages of the
type-error paths, which no claim exercises, are abbreviated; the external
a2a TaskStore write is outside the workflow store. -/
def scap_execute_task (e : RuleEngine) (llm : Option (List Dict → String → String))
    (agent_id : String) (st : Store) (state : Dict) (now : String) :
    Except String Value × Store :=
  let task_id := stateStr state "task_id"
  let st1 := save_state st agent_id task_id state
  match (dictGet state "context").getD (.obj []) with
  | .obj ctx =>
      match (alGet ctx "payload").getD (.obj []) with
      | .obj payload =>
          let case_id := pyOr ((alGet payload "case_id").getD .null)
            ((dictGet state "case_id").getD .null)
          let conversation_id := pyOr ((dictGet state "conversation_id").getD .null) case_id
          match conversation_id with
          | .str conv =>
              match load_state st1 ORCHESTRATION_AGENT_ID conv with
              | none =>
                  (.error ("State not found for case " ++ pyStr case_id),
                   save_state st1 agent_id task_id state)
              | some _ =>
                  match (alGet payload "transactions").getD (.arr []) with
                  | .arr txns =>
                      match evalTransactions e txns with
                      | none => (.error "TypeError", save_state st1 agent_id task_id state)
                      | some results =>
                          let flagged := results.filter isFlagged
                          match generate_summary llm flagged (pyStr case_id) with
                          | none => (.error "TypeError", save_state st1 agent_id task_id state)
                          | some summary =>
                              let resultsDict : Dict :=
                                [("case_id", case_id),
                                 ("total_transactions", .num txns.length),
                                 ("flagged_count", .num flagged.length),
                                 ("flagged_transactions", .arr (flagged.map .obj)),
                                 ("summary", .str summary),
                                 ("timestamp", (dictGet state "timestamp").getD (.str ""))]
                              match update_state st1 ORCHESTRATION_AGENT_ID conv
                                  [("scap_results", .obj resultsDict),
                                   ("summary", .str summary),
                                   ("status", .str "completed")] now with
                              | (.error err, st2) =>
                                  (.error err, save_state st2 agent_id task_id state)
                              | (.ok _, st2) =>
                                  (.ok (.obj [("status", .str "success"),
                                      ("results", .obj resultsDict)]),
                                   save_state st2 agent_id task_id state)
                  | _ => (.error "TypeError", save_state st1 agent_id task_id state)
          | _ => (.error "TypeError", save_state st1 agent_id task_id state)
      | _ => (.error "TypeError", save_state st1 agent_id task_id state)
  | _ => (.error "TypeError", save_state st1 agent_id task_id state)

/-- Rule engine for the C1 scenario: threshold 1000, one configured sensitive
jurisdiction. -/
def c1engine : RuleEngine := ⟨⟨[], ["IRAN"], some 1000⟩, 1000⟩

/-- C1 scenario transaction under the threshold, non-sensitive. -/
def c1txn1 : Dict :=
  [("transaction_id", .str "txn_1"), ("account", .str "ACC-1"),
   ("country", .str "US"), ("jurisdiction", .str "US"), ("amount", .num 500)]

/-- C1 scenario transaction over the threshold in the sensitive
jurisdiction: the one the claim expects to be flagged. -/
def c1txn2 : Dict :=
  [("transaction_id", .str "txn_2"), ("account", .str "ACC-2"),
   ("country", .str "IR"), ("jurisdiction", .str "IRAN"), ("amount", .num 5000)]

/-- C1 scenario transaction under the threshold. -/
def c1txn3 : Dict :=
  [("transaction_id", .str "txn_3"), ("account", .str "ACC-3"),
   ("country", .str "FR"), ("jurisdiction", .str "FR"), ("amount", .num 800)]

/-- The deep state the screening worker receives for case CASE-001 after the
upstream stages forward the three transactions. -/
def c1deepState : Dict :=
  [("task_id", .str "task-1"), ("case_id", .str "CASE-001"),
   ("conversation_id", .str "conv-001"),
   ("context", .obj
     [("payload", .obj
       [("case_id", .str "CASE-001"),
        ("transactions", .arr [.obj c1txn1, .obj c1txn2, .obj c1txn3]),
        ("action", .str "validate_sensitive_countries")])]),
   ("timestamp", .str "T2")]

/-- The store after case submission for the C1 scenario. -/
def c1store : Store :=
  (create_initial_state [] "CASE-001" "transactions.csv" (some "conv-001") "u1" "T0").2

/-- Claim C1, evaluation at the failing input: the submitted case saves its
Workflow State under the namespace "orchestration", every downstream worker
loads it under `Config.ORCHESTRATION_AGENT_ID` = "orchestration-agent" and
finds nothing, so the screening stage raises "State not found" even with the
three transactions in hand, the EXECUTE node records an error result, and
the stored record keeps status "initialized" with no scap_results — never
the claimed status "completed" with flagged_count 1.  The rule engine itself
would flag exactly the over-threshold sensitive-jurisdiction transaction,
confirming the claim describes the intent. -/
theorem pipeline_namespace_mismatch_eval :
    load_state c1store "orchestration" "conv-001"
      = some (create_initial_state [] "CASE-001" "transactions.csv"
          (some "conv-001") "u1" "T0").1 ∧
    load_state c1store ORCHESTRATION_AGENT_ID "conv-001" = none ∧
    (scap_execute_task c1engine none "scap-agent" c1store c1deepState "T3").1
      = .error "State not found for case CASE-001" ∧
    (load_state (scap_execute_task c1engine none "scap-agent" c1store c1deepState "T3").2
        "orchestration" "conv-001").map (fun r => dictGet r "status")
      = some (some (.str "initialized")) ∧
    (load_state (scap_execute_task c1engine none "scap-agent" c1store c1deepState "T3").2
        "orchestration" "conv-001").map (fun r => dictGet r "scap_results")
      = some (some .null) ∧
    (c1engine.evaluate_transaction c1txn1).map (fun r => dictGet r "risk_flagged")
      = some (some (.bool false)) ∧
    (c1engine.evaluate_transaction c1txn2).map (fun r => dictGet r "risk_flagged")
      = some (some (.bool true)) ∧
    (c1engine.evaluate_transaction c1txn3).map (fun r => dictGet r "risk_flagged")
      = some (some (.bool false)) ∧
    dictGet (deep_execute_node
        (fun s => (scap_execute_task c1engine none "scap-agent" c1store s "T3").1)
        "T4" c1deepState) "execution_results"
      = some (.arr [.obj [("status", .str "error"),
          ("error", .str "State not found for case CASE-001"),
          ("timestamp", .str "T4")]]) := by
  refine ⟨rfl, rfl, rfl, rfl, rfl, rfl, rfl, rfl, rfl⟩

/-! ## Worker loop start-up (agents/base_agent.py, shared/asb_client.py) -/

/-- One observable event of the worker start-up. -/
inductive LoopEvent where
  | ensureSub (arg : Option String)
  | receiveCall (agent_id : String) (max_wait : Nat)
  | sleepFor (secs : Nat)
  deriving DecidableEq, Repr

/-- A call to `ASBClient.ensure_subscription_exists`: the method signature
requires `agent_id` (asb_client.py line 112), so a call with no argument
raises TypeError before the body runs; with an argument the body catches
every exception itself and at most logs a warning. -/
def call_ensure_subscription_exists : Option String → Except String Unit
  | none => .error "TypeError: ensure_subscription_exists missing required argument agent_id"
  | some _ => .ok ()

/-- The while-loop of `BaseAgent.start`, one list entry per poll outcome:
each iteration receives with the worker's own agent id and a 5 second
window; a failed receive logs and sleeps a fixed 5 seconds before retrying —
the delay never grows. -/
def receive_loop (agent_id : String) : List (Except String Unit) → List LoopEvent
  | [] => []
  | .ok _ :: rest => .receiveCall agent_id 5 :: receive_loop agent_id rest
  | .error _ :: rest =>
      .receiveCall agent_id 5 :: .sleepFor 5 :: receive_loop agent_id rest

/-- `BaseAgent.start`: first `ensure_subscription_exists()` — invoked with NO
argument (base_agent.py line 277, though the inline comment claims the
argument is optional) — then the receive loop.  Returns the events and the
exception that escapes, if any. -/
def start (agent_id : String) (recvOutcomes : List (Except String Unit)) :
    List LoopEvent × Option String :=
  match call_ensure_subscription_exists none with
  | .error e => ([.ensureSub none], some e)
  | .ok _ => (.ensureSub none :: receive_loop agent_id recvOutcomes, none)

/-- Claim C6, evaluation at the failing input: any invocation of `start`
raises TypeError out of the missing-argument `ensure_subscription_exists()`
call, so the receive loop is never entered (no receive event occurs); the
loop body itself, as written, would sleep a fixed 5 seconds after each
failed receive with no backoff growth. -/
theorem start_missing_agent_id_eval :
    start "scap-agent" [.error "TransportError", .error "TransportError", .ok ()]
      = ([.ensureSub none],
         some "TypeError: ensure_subscription_exists missing required argument agent_id") ∧
    receive_loop "scap-agent" [.error "e1", .error "e2", .ok ()]
      = [.receiveCall "scap-agent" 5, .sleepFor 5,
         .receiveCall "scap-agent" 5, .sleepFor 5,
         .receiveCall "scap-agent" 5] :=
  ⟨rfl, rfl⟩

/-- Claim C9 (amended): without a configured model, PERCEIVE sets the
perception to the canned value whose understanding is "Basic perception
without LLM" (with the state's context as relevant context) and whose
priority is "medium", and PLAN sets the plan to exactly the one fixed
fallback step; both phases are total functions, so neither raises. -/
theorem perceive_plan_fallback_amended (state : Dict) :
    dictGet (perceive_node none state) "perception" =
      some (.obj
        [("understanding", .str "Basic perception without LLM"),
         ("relevant_context", (dictGet state "context").getD (.obj [])),
         ("priority", .str "medium")]) ∧
    dictGet (plan_node none state) "plan" =
      some (.arr
        [.obj [("action", .str "execute_task"),
               ("description", .str "Execute assigned task")]]) :=
  ⟨dictGet_dictSet_self _ _ _, dictGet_dictSet_self _ _ _⟩

end Mag
